import Mathlib

/-!
Verification of the Venus transit simulation (src/venus_transit_app.py).

The core logic of the program consists of three pieces:
* `generate_orbital_data` — the circular-orbit position function
  (lines 14-19 of the source);
* `is_transit_occurring` — the proximity-threshold transit predicate
  (lines 21-29);
* the play/pause/reset/tick animation state machine held in the session
  state (`st.session_state.time`, `st.session_state.is_playing`,
  lines 40-66).

The geometry is embedded over the real numbers; the clock state is embedded
over the integers, since the Python session value starts at `0` and is only
ever incremented by the integer literal `2` or reset to `0`.
-/

namespace VenusTransit

/-- The session-state clock of the animation: `time` is
`st.session_state.time` and `is_playing` is `st.session_state.is_playing`
from `create_simulation`. -/
structure SimClock where
  time : Int
  is_playing : Bool
deriving Repr, DecidableEq

/-- The fixed time step: `st.session_state.time += 2` (line 66). -/
def TIME_STEP : Int := 2

/-- Initial session state (lines 40-43): `time = 0`, `is_playing = False`. -/
def initClock : SimClock := { time := 0, is_playing := false }

/-- The Play button handler (lines 48-51): `st.session_state.is_playing = True`. -/
def play (s : SimClock) : SimClock := { s with is_playing := true }

/-- The Pause button handler (lines 53-56): `st.session_state.is_playing = False`. -/
def pauseClock (s : SimClock) : SimClock := { s with is_playing := false }

/-- The Reset button handler (lines 58-62): `time = 0`, `is_playing = False`. -/
def reset (_ : SimClock) : SimClock := { time := 0, is_playing := false }

/-- The per-rerun animation step (lines 64-66): if playing, add `TIME_STEP`
to the simulated time; otherwise do nothing. -/
def tick (s : SimClock) : SimClock :=
  if s.is_playing then { s with time := s.time + TIME_STEP } else s

/-- `n` consecutive ticks. -/
def tickN : Nat → SimClock → SimClock
  | 0, s => s
  | n + 1, s => tick (tickN n s)

/-- The four operations the UI can apply to the clock. -/
inductive Op
  | play
  | pauseOp
  | reset
  | tick
deriving Repr, DecidableEq

/-- Apply one UI operation to the clock. -/
def applyOp : Op → SimClock → SimClock
  | Op.play, s => play s
  | Op.pauseOp, s => pauseClock s
  | Op.reset, s => reset s
  | Op.tick, s => tick s

/-- Run a sequence of UI operations from a given clock state. -/
def run : List Op → SimClock → SimClock
  | [], s => s
  | o :: os, s => run os (applyOp o s)

/- ## Orbital geometry (lines 7-29 of the source) -/

/-- Orbital parameters set in `__init__` (line 9): Earth's orbital radius in AU. -/
noncomputable def earth_radius : ℝ := 1.0

/-- Venus's orbital radius in AU (line 10). -/
noncomputable def venus_radius : ℝ := 0.72

/-- Earth's orbital period in days (line 11). -/
noncomputable def earth_orbital_period : ℝ := 365.25

/-- Venus's orbital period in days (line 12). -/
noncomputable def venus_orbital_period : ℝ := 224.7

/-- `generate_orbital_data` (lines 14-19): the planet position at a given
time on a circular orbit, `angle = 2π·time/period`, `x = radius·cos angle`,
`y = radius·sin angle`. -/
noncomputable def generate_orbital_data (time radius period : ℝ) : ℝ × ℝ :=
  let angle := (2 * Real.pi * time) / period
  (radius * Real.cos angle, radius * Real.sin angle)

/-- The Euclidean distance computed inside `is_transit_occurring` (line 24). -/
noncomputable def angular_distance (earth_x earth_y venus_x venus_y : ℝ) : ℝ :=
  Real.sqrt ((earth_x - venus_x) ^ 2 + (earth_y - venus_y) ^ 2)

/-- The transit proximity threshold (line 27). -/
noncomputable def transit_threshold : ℝ := 0.15

/-- `is_transit_occurring` (lines 21-29): the distance between the two
positions is strictly below the threshold. -/
def is_transit_occurring (earth_x earth_y venus_x venus_y : ℝ) : Prop :=
  angular_distance earth_x earth_y venus_x venus_y < transit_threshold

/- ## Helper lemmas about the clock -/

lemma tick_is_playing (s : SimClock) : (tick s).is_playing = s.is_playing := by
  unfold tick
  by_cases h : s.is_playing <;> simp [h]

lemma tickN_is_playing (n : Nat) (s : SimClock) :
    (tickN n s).is_playing = s.is_playing := by
  induction n with
  | zero => rfl
  | succ n ih => simp [tickN, tick_is_playing, ih]

lemma tick_paused (s : SimClock) (h : s.is_playing = false) : tick s = s := by
  simp [tick, h]

lemma tick_playing_time (s : SimClock) (h : s.is_playing = true) :
    (tick s).time = s.time + TIME_STEP := by
  simp [tick, h]

lemma run_even (ops : List Op) :
    ∀ s : SimClock, (∃ n : Nat, s.time = 2 * (n : Int)) →
      ∃ n : Nat, (run ops s).time = 2 * (n : Int) := by
  induction ops with
  | nil => intro s h; exact h
  | cons o os ih =>
    intro s h
    obtain ⟨n, hn⟩ := h
    apply ih
    cases o with
    | play => exact ⟨n, hn⟩
    | pauseOp => exact ⟨n, hn⟩
    | reset => exact ⟨0, rfl⟩
    | tick =>
      by_cases hp : s.is_playing
      · refine ⟨n + 1, ?_⟩
        simp [applyOp, tick, hp, hn, TIME_STEP]
        ring
      · simp only [Bool.not_eq_true] at hp
        exact ⟨n, by simp [applyOp, tick_paused s hp, hn]⟩

/- ## Claim theorems about the clock -/

/-- Claim C1: calling `tick` N times while Paused leaves the simulated time
unchanged, and calling `tick` N times while Playing increases the simulated
time by exactly N times `TIME_STEP`. -/
theorem tickN_time_change (s : SimClock) (n : Nat) :
    (s.is_playing = false → (tickN n s).time = s.time) ∧
    (s.is_playing = true → (tickN n s).time = s.time + (n : Int) * TIME_STEP) := by
  constructor
  · intro h
    induction n with
    | zero => rfl
    | succ n ih =>
      have hp : (tickN n s).is_playing = false := by rw [tickN_is_playing, h]
      simp [tickN, tick_paused _ hp, ih]
  · intro h
    induction n with
    | zero => simp [tickN]
    | succ n ih =>
      have hp : (tickN n s).is_playing = true := by rw [tickN_is_playing, h]
      rw [tickN, tick_playing_time _ hp, ih]
      push_cast
      ring

/-- Witness for claim C1 at a concrete state: from time 5, 3 ticks while
paused keep time 5, and 3 ticks while playing reach 5 + 3·TIME_STEP. -/
theorem tickN_time_change_witness :
    ((⟨5, false⟩ : SimClock).is_playing = false ∧
      (tickN 3 (⟨5, false⟩ : SimClock)).time = (⟨5, false⟩ : SimClock).time) ∧
    ((⟨5, true⟩ : SimClock).is_playing = true ∧
      (tickN 3 (⟨5, true⟩ : SimClock)).time =
        (⟨5, true⟩ : SimClock).time + ((3 : Nat) : Int) * TIME_STEP) :=
  ⟨⟨rfl, (tickN_time_change ⟨5, false⟩ 3).1 rfl⟩,
   ⟨rfl, (tickN_time_change ⟨5, true⟩ 3).2 rfl⟩⟩

/-- Claim C2: from any prior clock state, `reset` yields the Paused state
with simulated time 0. -/
theorem reset_spec (s : SimClock) :
    (reset s).time = 0 ∧ (reset s).is_playing = false :=
  ⟨rfl, rfl⟩

/-- Claim C8: `tick` never changes the play/pause flag, and `play` and
`pauseClock` never change the simulated time. -/
theorem frame_conditions (s : SimClock) :
    (tick s).is_playing = s.is_playing ∧
    (play s).time = s.time ∧
    (pauseClock s).time = s.time :=
  ⟨tick_is_playing s, rfl, rfl⟩

/-- Claim C9: in every state reachable from the initial clock state by any
sequence of play/pause/reset/tick operations, the simulated time is
non-negative. -/
theorem reachable_time_nonneg (ops : List Op) :
    0 ≤ (run ops initClock).time := by
  obtain ⟨n, hn⟩ := run_even ops initClock ⟨0, rfl⟩
  rw [hn]
  positivity

/-- Claim C10: in every state reachable from the initial clock state by any
sequence of play/pause/reset/tick operations, the simulated time is a
non-negative even integer multiple of `TIME_STEP = 2`. -/
theorem reachable_time_even (ops : List Op) :
    ∃ n : Nat, (run ops initClock).time = 2 * (n : Int) :=
  run_even ops initClock ⟨0, rfl⟩

/- ## Claim theorems about the geometry -/

/-- Claim C3: for every time, radius and positive period, the point returned
by `generate_orbital_data` lies on the circle of that radius centered at the
origin: x² + y² = radius². -/
theorem position_on_circle (time radius period : ℝ) (_h : 0 < period) :
    (generate_orbital_data time radius period).1 ^ 2 +
      (generate_orbital_data time radius period).2 ^ 2 = radius ^ 2 := by
  simp only [generate_orbital_data]
  have key : (radius * Real.cos ((2 * Real.pi * time) / period)) ^ 2 +
      (radius * Real.sin ((2 * Real.pi * time) / period)) ^ 2 =
      radius ^ 2 * (Real.sin ((2 * Real.pi * time) / period) ^ 2 +
        Real.cos ((2 * Real.pi * time) / period) ^ 2) := by ring
  rw [key, Real.sin_sq_add_cos_sq, mul_one]

/-- Witness for claim C3 at time 0, radius 1, period 1. -/
theorem position_on_circle_witness :
    (0 : ℝ) < 1 ∧
      (generate_orbital_data 0 1 1).1 ^ 2 + (generate_orbital_data 0 1 1).2 ^ 2 =
        (1 : ℝ) ^ 2 :=
  ⟨by norm_num, position_on_circle 0 1 1 (by norm_num)⟩

/-- Claim C6: the orbital position is periodic in time with period `p`:
`generate_orbital_data (t + p) r p = generate_orbital_data t r p` for `p > 0`. -/
theorem position_periodic (t r p : ℝ) (h : 0 < p) :
    generate_orbital_data (t + p) r p = generate_orbital_data t r p := by
  have hp : p ≠ 0 := ne_of_gt h
  have ha : (2 * Real.pi * (t + p)) / p = (2 * Real.pi * t) / p + 2 * Real.pi := by
    field_simp
    ring
  simp only [generate_orbital_data, ha, Real.cos_add_two_pi, Real.sin_add_two_pi]

/-- Witness for claim C6 at t = 0, r = 1, p = 1. -/
theorem position_periodic_witness :
    (0 : ℝ) < 1 ∧ generate_orbital_data (0 + 1) 1 1 = generate_orbital_data 0 1 1 :=
  ⟨by norm_num, position_periodic 0 1 1 (by norm_num)⟩

/-- Claim C4: `is_transit_occurring` holds exactly when the Euclidean
distance between the two points is strictly below 0.15; in particular it is
false at distance exactly 0.15 and true at distance 0.1499. -/
theorem transit_iff_distance_lt :
    (∀ ax ay bx bb : ℝ, is_transit_occurring ax ay bx bb ↔
        Real.sqrt ((ax - bx) ^ 2 + (ay - bb) ^ 2) < 0.15) ∧
    ¬ is_transit_occurring 0 0 0.15 0 ∧
    is_transit_occurring 0 0 0.1499 0 := by
  have hpt : ∀ c : ℝ, 0 ≤ c → angular_distance 0 0 c 0 = c := by
    intro c hc
    have hsq : ((0 : ℝ) - c) ^ 2 + ((0 : ℝ) - 0) ^ 2 = c ^ 2 := by ring
    rw [angular_distance, hsq, Real.sqrt_sq hc]
  refine ⟨fun ax ay bx bb => Iff.rfl, ?_, ?_⟩
  · rw [is_transit_occurring, hpt 0.15 (by norm_num), transit_threshold]
    exact lt_irrefl _
  · rw [is_transit_occurring, hpt 0.1499 (by norm_num), transit_threshold]
    norm_num

/-- Claim C7: `is_transit_occurring` is symmetric in its two points, and
holds for any point paired with itself. -/
theorem transit_symm_refl :
    (∀ ax ay bx bb : ℝ, is_transit_occurring ax ay bx bb ↔
        is_transit_occurring bx bb ax ay) ∧
    (∀ ax ay : ℝ, is_transit_occurring ax ay ax ay) := by
  constructor
  · intro ax ay bx bb
    have hsw : (ax - bx) ^ 2 + (ay - bb) ^ 2 = (bx - ax) ^ 2 + (bb - ay) ^ 2 := by
      ring
    rw [is_transit_occurring, is_transit_occurring, angular_distance,
      angular_distance, hsw]
  · intro ax ay
    have hz : angular_distance ax ay ax ay = 0 := by
      simp [angular_distance]
    rw [is_transit_occurring, hz, transit_threshold]
    norm_num

/-- Claim C5: with Earth (radius 1.0, period 365.25) and Venus (radius 0.72,
period 224.7), at time 0 Earth sits at (1, 0) and Venus at (0.72, 0), their
distance is 0.28, and no transit is detected. -/
theorem initial_configuration :
    generate_orbital_data 0 earth_radius earth_orbital_period = ((1 : ℝ), (0 : ℝ)) ∧
    generate_orbital_data 0 venus_radius venus_orbital_period = ((0.72 : ℝ), (0 : ℝ)) ∧
    angular_distance 1 0 0.72 0 = 0.28 ∧
    ¬ is_transit_occurring 1 0 0.72 0 := by
  have hd : angular_distance 1 0 0.72 0 = 0.28 := by
    have hsq : ((1 : ℝ) - 0.72) ^ 2 + ((0 : ℝ) - 0) ^ 2 = 0.28 ^ 2 := by norm_num
    rw [angular_distance, hsq, Real.sqrt_sq (by norm_num)]
  refine ⟨?_, ?_, hd, ?_⟩
  · norm_num [generate_orbital_data, earth_radius]
  · norm_num [generate_orbital_data, venus_radius]
  · rw [is_transit_occurring, hd, transit_threshold]
    norm_num

end VenusTransit
